import Mathlib

/-
  Verification of `swiss_cv_analyser_streamlit.py`.

  The Python source is shallowly embedded below.  Strings are modelled by
  Lean `String` (a list of characters, matching Python's by-code-point
  semantics for slicing and scanning); the generative-AI provider is an
  oracle `Nat → PResp` giving, for each successive `generate_content`
  call, either the returned text or the message of the raised exception.
  Scanning functions that skip ahead in the text (the `re.sub` and
  `str.replace` translations) take an explicit fuel argument, initialised
  to the text length, so that they are structurally recursive and compute
  by kernel reduction.
-/

namespace CVAnalysis

/-- Whitespace test used by Python `str.strip()` and `\s`, restricted to the
ASCII range (Python additionally treats some Unicode code points as
whitespace; no behaviour verified here depends on those). -/
def pyIsSpace (c : Char) : Bool :=
  c = ' ' || c = '\t' || c = '\n' || c = '\r' || c = '\x0b' || c = '\x0c'

/-- Python `s.strip()` on the character list: drop whitespace at both ends. -/
def pyStripL (l : List Char) : List Char :=
  ((l.dropWhile pyIsSpace).reverse.dropWhile pyIsSpace).reverse

/-- Python `s.strip()`. -/
def pyStrip (s : String) : String := String.mk (pyStripL s.data)

/-- Python slicing `s[:n]`, by characters. -/
def pyTake (n : Nat) (s : String) : String := String.mk (s.data.take n)

/-- Contiguous-substring test on character lists (Python `pat in s`). -/
def hasSub (pat : List Char) : List Char → Bool
  | [] => pat.isEmpty
  | c :: rest => pat.isPrefixOf (c :: rest) || hasSub pat rest

/-- Python `pat in s` on strings. -/
def strHasSub (pat s : String) : Bool := hasSub pat.data s.data

/-- One provider response: `generate_content` either returns text or raises
an exception carrying a message string. -/
inductive PResp where
  | ok (text : String)
  | err (msg : String)
deriving DecidableEq

/-- Observable outcome of one `call_gemini` invocation: the returned string,
the number of `generate_content` calls made, and the list of `time.sleep`
durations performed (in seconds, in order). -/
structure GenResult where
  text : String
  calls : Nat
  sleeps : List Nat
deriving DecidableEq

/-- Python `"429" in str(e)` (source line 62). -/
def contains429 (msg : String) : Bool := strHasSub "429" msg

/-- The `for attempt in range(3)` loop of `call_gemini` (source lines 57-66).
`oracle a` is the provider's behaviour on the a-th `generate_content` call
of this invocation; `fuel` is the number of loop iterations remaining.  On
success the response text is stripped and returned; on an exception whose
message contains "429" the code sleeps 4 seconds and retries; any other
exception returns "" at once; when the loop ends, "" is returned (line 66). -/
def callLoop (oracle : Nat → PResp) : Nat → Nat → GenResult
  | _, 0 => ⟨"", 0, []⟩
  | attempt, fuel + 1 =>
    match oracle attempt with
    | PResp.ok t => ⟨pyStrip t, 1, []⟩
    | PResp.err m =>
      if contains429 m then
        let r := callLoop oracle (attempt + 1) fuel
        ⟨r.text, r.calls + 1, 4 :: r.sleeps⟩
      else ⟨"", 1, []⟩

/-- `call_gemini` (source lines 55-66): a blank prompt short-circuits to "",
otherwise up to 3 attempts are made. -/
def call_gemini (oracle : Nat → PResp) (prompt : String) : GenResult :=
  if pyStrip prompt = "" then ⟨"", 0, []⟩ else callLoop oracle 0 3

lemma callLoop_calls_le (oracle : Nat → PResp) :
    ∀ fuel a, (callLoop oracle a fuel).calls ≤ fuel := by
  intro fuel
  induction fuel with
  | zero => intro a; simp [callLoop]
  | succ n ih =>
    intro a
    simp only [callLoop]
    cases oracle a with
    | ok t => simp
    | err m =>
      by_cases h : contains429 m
      · simpa [h] using Nat.succ_le_succ (ih (a + 1))
      · simp [h]

/-- Claim C1: for every prompt whose provider calls all raise exceptions whose
messages contain "429", `call_gemini` retries with a fixed 4-second backoff,
makes at most (here: exactly) 3 attempts in total, and after the third such
failure still returns a result value (the empty-string failure sentinel of
line 66) instead of propagating the exception. -/
theorem c1_rate_limit_retry_bounded :
    (∀ (oracle : Nat → PResp) (prompt : String),
      (call_gemini oracle prompt).calls ≤ 3) ∧
    (∀ (oracle : Nat → PResp) (prompt : String),
      pyStrip prompt ≠ "" →
      (∀ i, i < 3 → ∃ m, oracle i = PResp.err m ∧ contains429 m = true) →
      call_gemini oracle prompt = ⟨"", 3, [4, 4, 4]⟩) := by
  constructor
  · intro oracle prompt
    unfold call_gemini
    split
    · simp
    · exact callLoop_calls_le oracle 3 0
  · intro oracle prompt hp h
    obtain ⟨m0, h0, h0c⟩ := h 0 (by omega)
    obtain ⟨m1, h1, h1c⟩ := h 1 (by omega)
    obtain ⟨m2, h2, h2c⟩ := h 2 (by omega)
    unfold call_gemini
    rw [if_neg hp]
    simp [callLoop, h0, h1, h2, h0c, h1c, h2c]

/-- Witness for C1 at a concrete all-429 oracle. -/
theorem c1_rate_limit_retry_bounded_witness :
    call_gemini (fun _ => PResp.err "429 Resource has been exhausted")
      "Analyse this CV" = ⟨"", 3, [4, 4, 4]⟩ :=
  c1_rate_limit_retry_bounded.2 _ _ (by decide)
    (fun _ _ => ⟨"429 Resource has been exhausted", rfl, by decide⟩)

/-- Claim C2, amended: on a first provider exception whose message does not
contain "429", `call_gemini` performs no retry (a single call, no sleep) and
returns the empty string — not a diagnostic string describing the error. -/
theorem c2_non_rate_limit_no_retry (oracle : Nat → PResp) (prompt m : String)
    (hp : pyStrip prompt ≠ "") (h0 : oracle 0 = PResp.err m)
    (hm : contains429 m = false) :
    call_gemini oracle prompt = ⟨"", 1, []⟩ := by
  unfold call_gemini
  rw [if_neg hp]
  simp [callLoop, h0, hm]

/-- Witness for the amended C2 at a concrete non-429 failure. -/
theorem c2_non_rate_limit_no_retry_witness :
    call_gemini (fun _ => PResp.err "404 model not found") "Analyse this CV" =
      ⟨"", 1, []⟩ :=
  c2_non_rate_limit_no_retry _ _ "404 model not found" (by decide) rfl (by decide)

/-- Counterexample to C2 as stated: after a non-429 failure ("401 API key not
valid") the function returns exactly the same `GenResult` as a successful call
whose legitimate response text is a single space, namely text "" after one
call; so the returned string neither describes the error nor lets the caller
distinguish valid generated content from a failure. -/
theorem c2_counterexample :
    call_gemini (fun _ => PResp.err "401 API key not valid") "Analyse this CV" =
      call_gemini (fun _ => PResp.ok " ") "Analyse this CV" ∧
    (call_gemini (fun _ => PResp.err "401 API key not valid")
      "Analyse this CV").text = "" ∧
    (call_gemini (fun _ => PResp.err "401 API key not valid")
      "Analyse this CV").calls = 1 := by
  refine ⟨?_, ?_, ?_⟩ <;> decide

/-- Claim C3: an empty or whitespace-only prompt returns an empty result and
`generate_content` is never invoked (zero provider calls). -/
theorem c3_blank_prompt_short_circuits (oracle : Nat → PResp) (prompt : String)
    (h : prompt.data.all pyIsSpace = true) :
    call_gemini oracle prompt = ⟨"", 0, []⟩ := by
  have hstrip : pyStrip prompt = "" := by
    have hdrop : prompt.data.dropWhile pyIsSpace = [] := by
      rw [List.dropWhile_eq_nil_iff]
      intro x hx
      exact List.all_eq_true.mp h x hx
    simp [pyStrip, pyStripL, hdrop]
  unfold call_gemini
  rw [if_pos hstrip]

/-- Witness for C3 at a concrete whitespace-only prompt. -/
theorem c3_blank_prompt_short_circuits_witness :
    call_gemini (fun _ => PResp.ok "should never be requested") "  \t \n " =
      ⟨"", 0, []⟩ :=
  c3_blank_prompt_short_circuits _ _ (by decide)

/-- Claim C4: if the first provider call raises a 429 exception and the second
succeeds with text `t`, then `call_gemini` makes exactly two provider calls
(one retry, with one fixed 4-second sleep between them) and returns `t`
trimmed of surrounding whitespace. -/
theorem c4_second_attempt_success (oracle : Nat → PResp) (prompt m t : String)
    (hp : pyStrip prompt ≠ "") (h0 : oracle 0 = PResp.err m)
    (hm : contains429 m = true) (h1 : oracle 1 = PResp.ok t) :
    call_gemini oracle prompt = ⟨pyStrip t, 2, [4]⟩ := by
  unfold call_gemini
  rw [if_neg hp]
  simp [callLoop, h0, hm, h1]

/-- Witness for C4 at a concrete 429-then-success oracle. -/
theorem c4_second_attempt_success_witness :
    call_gemini
      (fun i => if i = 0 then PResp.err "Error 429: quota exceeded"
                else PResp.ok "  The report body  ")
      "Analyse this CV" = ⟨"The report body", 2, [4]⟩ := by
  have h := c4_second_attempt_success
    (fun i => if i = 0 then PResp.err "Error 429: quota exceeded"
              else PResp.ok "  The report body  ")
    "Analyse this CV" "Error 429: quota exceeded" "  The report body  "
    (by decide) (by decide) (by decide) (by decide)
  rw [h]
  decide

/-- The hardcoded fallback model identifier (source line 32). -/
def defaultModel : String := "models/gemini-1.5-flash"

/-- The priority list of source line 27. -/
def priorityList : List String :=
  ["models/gemini-1.5-flash", "models/gemini-1.5-flash-latest", "models/gemini-pro"]

/-- The `for p in priority` loop of source lines 28-29: return the first
candidate contained in the available list, if any. -/
def firstAvailable : List String → List String → Option String
  | [], _ => none
  | p :: ps, avail => if avail.contains p then some p else firstAvailable ps avail

/-- Body of the `try` block of `get_best_model` (source lines 26-30), after the
availability query has produced `available`: the priority loop, then
`available_models[0]`, whose `IndexError` on an empty list is modelled as the
error case. -/
def resolve_body (priority available : List String) : Except String String :=
  match firstAvailable priority available with
  | some p => Except.ok p
  | none =>
    match available.get? 0 with
    | some a => Except.ok a
    | none => Except.error "IndexError: list index out of range"

/-- `get_best_model` (source lines 22-32), generalised over the priority list.
`query` is the outcome of the `genai.list_models()` availability query:
`none` when that call raises, `some avail` when it reports the identifiers
supporting content generation.  The surrounding `except Exception` catches
every failure and yields the hardcoded default. -/
def resolve_model (priority : List String) (query : Option (List String)) : String :=
  match (match query with
         | some avail => resolve_body priority avail
         | none => Except.error "list_models failed") with
  | Except.ok m => m
  | Except.error _ => defaultModel

/-- `get_best_model` as in the source, with its hardcoded priority list. -/
def get_best_model (query : Option (List String)) : String :=
  resolve_model priorityList query

/-- Modelled from the claim's words (C5), for comparison with the source
embedding `get_best_model`: the result is the first priority identifier that
is a member of the reported set; if none is, it is the first model of the
reported set; if the availability query failed, it is the hardcoded default. -/
def c5ClaimedSpec (query : Option (List String)) (result : String) : Prop :=
  match query with
  | none => result = defaultModel
  | some avail =>
    match priorityList.find? (fun p => avail.contains p) with
    | some p => result = p
    | none => avail.head? = some result

lemma firstAvailable_eq_find (ps avail : List String) :
    firstAvailable ps avail = ps.find? (fun p => avail.contains p) := by
  induction ps with
  | nil => rfl
  | cons p ps ih =>
    simp only [firstAvailable, List.find?]
    cases h : avail.contains p
    · rw [if_neg (by simp [h]), ih]
    · rw [if_pos rfl]

/-- Counterexample to C5 as stated: when the availability query succeeds but
reports the empty set, no priority identifier is a member, yet the function
does not (cannot) return "the first model of the reported set": the
`IndexError` raised by `available_models[0]` is swallowed by the
`except` clause and the hardcoded default comes back instead. -/
theorem c5_counterexample :
    ¬ c5ClaimedSpec (some []) (get_best_model (some [])) := by
  intro h
  have h1 : priorityList.find? (fun p => ([] : List String).contains p) = none := rfl
  simp only [c5ClaimedSpec, h1] at h
  simp at h

/-- Claim C5, amended: the resolver returns the first priority identifier
present in the reported set; failing that, the first model of the reported
set when that set is nonempty; and the hardcoded default both when the
reported set is empty (the indexing error being caught) and when the
availability query itself fails.  Being a total function into `String`, it
always yields a handle and never propagates an exception. -/
theorem c5_model_resolution (query : Option (List String)) :
    get_best_model query =
      match query with
      | none => defaultModel
      | some avail =>
        match priorityList.find? (fun p => avail.contains p) with
        | some p => p
        | none => avail.headD defaultModel := by
  cases query with
  | none => rfl
  | some avail =>
    simp only [get_best_model, resolve_model, resolve_body, firstAvailable_eq_find]
    cases hf : priorityList.find? (fun p => avail.contains p) with
    | some p => rfl
    | none => cases avail <;> rfl

/-- Claim C6: model resolution is deterministic — for a fixed candidate
priority list and a fixed provider-reported availability outcome, any two
invocations of the resolver produce the same handle.  In this embedding the
provider-reported availability is an explicit argument, so the resolver is a
pure function and two evaluations at equal arguments coincide. -/
theorem c6_model_resolution_deterministic (priority : List String)
    (query : Option (List String)) :
    resolve_model priority query = resolve_model priority query := rfl

/-- Scan for the earliest occurrence of `"NAME_END"` and return the text after
it; `none` when the token does not occur.  This realises the non-greedy
`.*?` of the pattern `NAME_START:.*?NAME_END` (source line 87, `re.DOTALL`,
case-sensitive), which stops at the first terminator. -/
def afterNameEnd : List Char → Option (List Char)
  | [] => none
  | c :: rest =>
    if ("NAME_END".data).isPrefixOf (c :: rest) then
      some ((c :: rest).drop ("NAME_END".data).length)
    else afterNameEnd rest

/-- The substitution `re.sub(r"NAME_START:.*?NAME_END", "", text, re.DOTALL)`
of source line 87, with explicit fuel (initialised to the text length by the
wrapper, and never exhausted there).  At each position, if `"NAME_START:"`
begins here and some `"NAME_END"` follows, the whole span is deleted and the
scan resumes after it; if no terminator follows this position, no terminator
follows any later position either, so no further match exists and the rest is
kept verbatim. -/
def removeNameSpansF : Nat → List Char → List Char
  | 0, l => l
  | _, [] => []
  | fuel + 1, c :: rest =>
    if ("NAME_START:".data).isPrefixOf (c :: rest) then
      match afterNameEnd ((c :: rest).drop ("NAME_START:".data).length) with
      | some l' => removeNameSpansF fuel l'
      | none => c :: rest
    else c :: removeNameSpansF fuel rest

/-- The substitution `re.sub(r"CATEGORY:.*", "", text)` of source line 88: at
each occurrence of `"CATEGORY:"` the greedy `.*` (no DOTALL: `.` excludes the
newline) deletes through the end of the line, and the scan resumes at the
newline. -/
def removeCategoryLinesF : Nat → List Char → List Char
  | 0, l => l
  | _, [] => []
  | fuel + 1, c :: rest =>
    if ("CATEGORY:".data).isPrefixOf (c :: rest) then
      removeCategoryLinesF fuel
        (((c :: rest).drop ("CATEGORY:".data).length).dropWhile (fun ch => ch ≠ '\n'))
    else c :: removeCategoryLinesF fuel rest

/-- Python `str.replace`: replace every non-overlapping occurrence of `pat`
by `rep`, scanning left to right, with explicit fuel. -/
def replaceF (pat rep : List Char) : Nat → List Char → List Char
  | 0, l => l
  | _, [] => []
  | fuel + 1, c :: rest =>
    if pat.isPrefixOf (c :: rest) then
      rep ++ replaceF pat rep fuel ((c :: rest).drop pat.length)
    else c :: replaceF pat rep fuel rest

/-- Python `s.replace(pat, rep)` for a nonempty `pat` (both uses in the source
have nonempty patterns; for an empty `pat` this embedding returns `l`). -/
def pyReplace (l pat rep : List Char) : List Char :=
  match pat with
  | [] => l
  | _ :: _ => replaceF pat rep l.length l

/-- The body-cleaning step of `create_word_report` (source lines 87-91): remove
`NAME_START:...NAME_END` spans, remove `CATEGORY:` lines, strip `"**"`, and
turn `"* "` bullets into `"• "`. -/
def stripMetaL (l : List Char) : List Char :=
  pyReplace
    (pyReplace (removeCategoryLinesF l.length (removeNameSpansF l.length l))
      ("**".data) [])
    ("* ".data) ("• ".data)

/-- String version of the body-cleaning step of source lines 87-91. -/
def stripMeta (s : String) : String := String.mk (stripMetaL s.data)

lemma hasSub_cons_false {pat : List Char} {c : Char} {rest : List Char}
    (h : hasSub pat (c :: rest) = false) :
    pat.isPrefixOf (c :: rest) = false ∧ hasSub pat rest = false := by
  simpa [hasSub] using h

lemma removeNameSpansF_of_not_sub :
    ∀ (fuel : Nat) (l : List Char), hasSub ("NAME_START:".data) l = false →
      removeNameSpansF fuel l = l := by
  intro fuel
  induction fuel with
  | zero => intro l _; cases l <;> rfl
  | succ n ih =>
    intro l h
    cases l with
    | nil => rfl
    | cons c rest =>
      obtain ⟨h1, h2⟩ := hasSub_cons_false h
      simp [removeNameSpansF, h1, ih rest h2]

lemma removeCategoryLinesF_of_not_sub :
    ∀ (fuel : Nat) (l : List Char), hasSub ("CATEGORY:".data) l = false →
      removeCategoryLinesF fuel l = l := by
  intro fuel
  induction fuel with
  | zero => intro l _; cases l <;> rfl
  | succ n ih =>
    intro l h
    cases l with
    | nil => rfl
    | cons c rest =>
      obtain ⟨h1, h2⟩ := hasSub_cons_false h
      simp [removeCategoryLinesF, h1, ih rest h2]

lemma replaceF_of_not_sub (pat rep : List Char) :
    ∀ (fuel : Nat) (l : List Char), hasSub pat l = false →
      replaceF pat rep fuel l = l := by
  intro fuel
  induction fuel with
  | zero => intro l _; cases l <;> rfl
  | succ n ih =>
    intro l h
    cases l with
    | nil => rfl
    | cons c rest =>
      obtain ⟨h1, h2⟩ := hasSub_cons_false h
      simp [replaceF, h1, ih rest h2]

lemma pyReplace_of_not_sub (l pat rep : List Char) (h : hasSub pat l = false) :
    pyReplace l pat rep = l := by
  cases pat with
  | nil => rfl
  | cons p ps => exact replaceF_of_not_sub (p :: ps) rep l.length l h

lemma stripMetaL_of_clean (l : List Char)
    (h1 : hasSub ("NAME_START:".data) l = false)
    (h2 : hasSub ("CATEGORY:".data) l = false)
    (h3 : hasSub ("**".data) l = false)
    (h4 : hasSub ("* ".data) l = false) :
    stripMetaL l = l := by
  unfold stripMetaL
  rw [removeNameSpansF_of_not_sub l.length l h1,
    removeCategoryLinesF_of_not_sub l.length l h2,
    pyReplace_of_not_sub l ("**".data) [] h3,
    pyReplace_of_not_sub l ("* ".data) ("• ".data) h4]

/-- Counterexample to C7 as stated: on `"CATEG**ORY:x"` a first pass leaves
the `CATEGORY:` substitution without a match and only deletes the `"**"`,
producing `"CATEGORY:x"`; a second pass then deletes that whole line, so
applying the stripping step twice differs from applying it once. -/
theorem c7_counterexample :
    stripMeta "CATEG**ORY:x" = "CATEGORY:x" ∧
    stripMeta (stripMeta "CATEG**ORY:x") = "" ∧
    stripMeta (stripMeta "CATEG**ORY:x") ≠ stripMeta "CATEG**ORY:x" := by
  refine ⟨?_, ?_, ?_⟩ <;> decide

/-- Claim C7, amended: the metadata-stripping step is idempotent on every text
whose once-stripped form is clean, i.e. contains no `"NAME_START:"`, no
`"CATEGORY:"`, no `"**"` and no `"* "` occurrence (the spec's "already-clean
text").  In general a single pass can itself manufacture a fresh marker — see
the counterexample — so unconditional idempotence fails. -/
theorem c7_strip_idempotent_on_clean (t : String)
    (h1 : strHasSub "NAME_START:" (stripMeta t) = false)
    (h2 : strHasSub "CATEGORY:" (stripMeta t) = false)
    (h3 : strHasSub "**" (stripMeta t) = false)
    (h4 : strHasSub "* " (stripMeta t) = false) :
    stripMeta (stripMeta t) = stripMeta t := by
  show String.mk (stripMetaL (stripMeta t).data) = stripMeta t
  rw [stripMetaL_of_clean (stripMeta t).data h1 h2 h3 h4]

/-- Witness for the amended C7 at a concrete report text whose stripped form
is clean. -/
theorem c7_strip_idempotent_on_clean_witness :
    stripMeta (stripMeta "### Header\nGood **solid** work") =
      stripMeta "### Header\nGood **solid** work" :=
  c7_strip_idempotent_on_clean _ (by decide) (by decide) (by decide) (by decide)

/-- Fixed instructional text preceding the truncated CV in the summarization
prompt (source line 138). -/
def cvSummaryHeader : String :=
  "Extract key career facts, technical skills, and achievements (max 800 words): "

/-- The CV summarization prompt of source line 138. -/
def cvSummaryPrompt (cv_text : String) : String :=
  cvSummaryHeader ++ pyTake 15000 cv_text

/-- Fixed instructional text preceding the truncated JD in the summarization
prompt (source line 139). -/
def jdSummaryHeader : String := "Extract core requirements and KPIs: "

/-- The JD summarization prompt of source line 139. -/
def jdSummaryPrompt (jd_text : String) : String :=
  jdSummaryHeader ++ pyTake 15000 jd_text

/-- The fixed template text of `final_prompt` (source lines 142-176) up to the
spliced CV summary. -/
def finalPromptHead : String :=
  "\n    You are a Senior Swiss Life Sciences Recruiter. Evaluate this CV against the JD.\n    \n    METADATA INSTRUCTIONS (Required for parsing):\n    1. Start the response EXACTLY with: NAME_START: [Candidate Name] NAME_END\n    2. Then, on a new line: CATEGORY: [READY, IMPROVE, or MAJOR]\n    \n    FORMATTING INSTRUCTIONS:\n    - Use \x27###\x27 for section headers.\n    - Do NOT use bold markdown (**). \n    - Do NOT use a main title (start directly with section 1).\n    - Write in clear, professional paragraphs or bullet points using \x27•\x27.\n\n    CONTENT STRUCTURE:\n    ### 1. CV PERFORMANCE SCORECARD\n    Overall Job-Fit Score: [Score]/100\n    [Brief explanation]\n\n    ### 2. SWISS COMPLIANCE & FORMATTING\n    The Fact: [Objective observation]\n    Audit: [Critique]\n\n    ### 3. TECHNICAL & KEYWORD ALIGNMENT\n    The Fact: [Objective observation]\n    Audit: [Critique]\n\n    ### 4. EVIDENCE OF IMPACT (KPIs)\n    The Fact: [Objective observation]\n    Audit: [Critique]\n\n    ### 5. PRIORITY ACTION PLAN\n    1. [Action 1]\n    2. [Action 2]\n\n    DATA:\n    CV SUMMARY: "

/-- The template text between the spliced CV summary and JD summary (source
lines 177-178). -/
def finalPromptMid : String := "\n    JD SUMMARY: "

/-- The template text after the spliced JD summary (source lines 178-179). -/
def finalPromptTail : String := "\n    "

/-- `final_prompt` of source lines 142-179: template with the two summaries
spliced in. -/
def finalPrompt (cv_summary jd_summary : String) : String :=
  finalPromptHead ++ cv_summary ++ finalPromptMid ++ jd_summary ++ finalPromptTail

/-- Re-index the provider oracle after `n` calls have already been made, so
the sequential invocations inside `run_analysis` consume one global stream
of provider responses. -/
def shiftOracle (oracle : Nat → PResp) (n : Nat) : Nat → PResp :=
  fun i => oracle (n + i)

/-- `run_analysis` (source lines 136-180): CV summarization call, then JD
summarization call when the JD text is nonempty (otherwise the constant
"General Standard"), then the final synthesis call.  Returns the final
report text together with the total number of `generate_content` calls. -/
def run_analysis (oracle : Nat → PResp) (cv_text jd_text : String) : String × Nat :=
  let r1 := call_gemini oracle (cvSummaryPrompt cv_text)
  let jd : String × Nat :=
    if jd_text = "" then ("General Standard", 0)
    else
      let r2 := call_gemini (shiftOracle oracle r1.calls) (jdSummaryPrompt jd_text)
      (r2.text, r2.calls)
  let r3 := call_gemini (shiftOracle oracle (r1.calls + jd.2)) (finalPrompt r1.text jd.1)
  (r3.text, r1.calls + jd.2 + r3.calls)

/-- Outcome of one button-click run, after PDF extraction has produced the raw
CV and JD texts (source lines 204-207). -/
inductive PipelineOutcome where
  | inputError (msg : String)
  | analysed (report : String)
deriving DecidableEq

/-- The user-facing message of source line 205. -/
def cvErrorMsg : String := "CV Extraction failed. The PDF might be an image scan."

/-- The `if not cv_raw` dispatch of source lines 204-207: an empty extracted
CV surfaces an input error; otherwise `run_analysis` runs.  The second
component counts the `generate_content` calls made by the run. -/
def analysis_pipeline (oracle : Nat → PResp) (cv_raw jd_raw : String) :
    PipelineOutcome × Nat :=
  if cv_raw = "" then (PipelineOutcome.inputError cvErrorMsg, 0)
  else
    let r := run_analysis oracle cv_raw jd_raw
    (PipelineOutcome.analysed r.1, r.2)

/-- Claim C8: when PDF extraction of the CV yields the empty string, the
pipeline surfaces the input error, `run_analysis` is never invoked, and zero
`generate_content` calls are made, for every provider behaviour and every JD
text. -/
theorem c8_empty_cv_short_circuits (oracle : Nat → PResp) (jd_raw : String) :
    analysis_pipeline oracle "" jd_raw = (PipelineOutcome.inputError cvErrorMsg, 0) := by
  simp [analysis_pipeline]

/-- Claim C9: each summarization prompt sent by `run_analysis` is the fixed
instructional header followed by the `[:15000]` slice of the CV (resp. JD)
text: that contribution is a leading portion of the original text of at most
15000 characters. -/
theorem c9_prompt_truncation (cv_text jd_text : String) :
    cvSummaryPrompt cv_text = cvSummaryHeader ++ pyTake 15000 cv_text ∧
    jdSummaryPrompt jd_text = jdSummaryHeader ++ pyTake 15000 jd_text ∧
    (pyTake 15000 cv_text).length ≤ 15000 ∧
    (pyTake 15000 jd_text).length ≤ 15000 ∧
    (pyTake 15000 cv_text).data <+: cv_text.data ∧
    (pyTake 15000 jd_text).data <+: jd_text.data := by
  refine ⟨rfl, rfl, ?_, ?_, ?_, ?_⟩
  · show (cv_text.data.take 15000).length ≤ 15000
    rw [List.length_take]
    exact min_le_left _ _
  · show (jd_text.data.take 15000).length ≤ 15000
    rw [List.length_take]
    exact min_le_left _ _
  · exact ⟨cv_text.data.drop 15000, List.take_append_drop _ _⟩
  · exact ⟨jd_text.data.drop 15000, List.take_append_drop _ _⟩

/-- ASCII lower-casing, realising `re.IGNORECASE` comparisons. -/
def lowerChar (c : Char) : Char :=
  if 'A' ≤ c && c ≤ 'Z' then Char.ofNat (c.toNat + 32) else c

/-- Case-insensitive counterpart of `List.isPrefixOf` on characters. -/
def isPrefixOfCI : List Char → List Char → Bool
  | [], _ => true
  | _ :: _, [] => false
  | p :: ps, c :: cs => (lowerChar p == lowerChar c) && isPrefixOfCI ps cs

/-- Scan for the earliest case-insensitive `"NAME_END"` and return the
characters before it (the text matched by the non-greedy group), or `none`
when the terminator never occurs. -/
def captureToNameEnd : List Char → Option (List Char)
  | [] => none
  | c :: rest =>
    if isPrefixOfCI ("NAME_END".data) (c :: rest) then some []
    else (captureToNameEnd rest).map (fun l => c :: l)

/-- `re.search(r"NAME_START:(.*?)NAME_END", text, re.DOTALL | re.IGNORECASE)`
of source line 79, returning the group when a match exists: the leftmost
case-insensitive `"NAME_START:"` is located and the group runs to the first
case-insensitive `"NAME_END"` after it; if no terminator follows that point,
none follows any later start either, so the search fails. -/
def findNameInner : List Char → Option (List Char)
  | [] => none
  | c :: rest =>
    if isPrefixOfCI ("NAME_START:".data) (c :: rest) then
      captureToNameEnd ((c :: rest).drop ("NAME_START:".data).length)
    else findNameInner rest

/-- `re.search(r"CATEGORY:\s*(READY|IMPROVE|MAJOR)", text, re.IGNORECASE)` of
source line 82 followed by `.group(1).upper()`: at the leftmost
case-insensitive `"CATEGORY:"`, skip whitespace, and if one of the three
keywords follows (case-insensitively) return it uppercased; otherwise resume
the search one position further on. -/
def findCategory : List Char → Option String
  | [] => none
  | c :: rest =>
    if isPrefixOfCI ("CATEGORY:".data) (c :: rest) then
      if isPrefixOfCI ("READY".data)
          (((c :: rest).drop ("CATEGORY:".data).length).dropWhile pyIsSpace) then
        some "READY"
      else if isPrefixOfCI ("IMPROVE".data)
          (((c :: rest).drop ("CATEGORY:".data).length).dropWhile pyIsSpace) then
        some "IMPROVE"
      else if isPrefixOfCI ("MAJOR".data)
          (((c :: rest).drop ("CATEGORY:".data).length).dropWhile pyIsSpace) then
        some "MAJOR"
      else findCategory rest
    else findCategory rest

/-- `candidate_name` of source line 80: the stripped group when the name
markers match, else the default "CANDIDATE". -/
def candidate_name (report_text : String) : String :=
  match findNameInner report_text.data with
  | some inner => pyStrip (String.mk inner)
  | none => "CANDIDATE"

/-- `category` of source line 83: the uppercased group when the category
pattern matches, else the default "IMPROVE". -/
def extract_category (report_text : String) : String :=
  match findCategory report_text.data with
  | some c => c
  | none => "IMPROVE"

/-- `REC_READY` of source line 121. -/
def rec_ready (report_text : String) : String :=
  if extract_category report_text = "READY" then "✅" else "⬜"

/-- `REC_IMPROVE` of source line 122. -/
def rec_improve (report_text : String) : String :=
  if extract_category report_text = "IMPROVE" then "✅" else "⬜"

/-- `REC_MAJOR` of source line 123. -/
def rec_major (report_text : String) : String :=
  if extract_category report_text = "MAJOR" then "✅" else "⬜"

lemma findCategory_canonical :
    ∀ (l : List Char) (c : String), findCategory l = some c →
      c = "READY" ∨ c = "IMPROVE" ∨ c = "MAJOR" := by
  intro l
  induction l with
  | nil => intro c h; simp [findCategory] at h
  | cons a rest ih =>
    intro c h
    simp only [findCategory] at h
    split_ifs at h
    · exact Or.inl (Option.some.inj h).symm
    · exact Or.inr (Or.inl (Option.some.inj h).symm)
    · exact Or.inr (Or.inr (Option.some.inj h).symm)
    · exact ih c h
    · exact ih c h

/-- Claim C10: when the name markers are absent the extracted candidate name
defaults to "CANDIDATE"; when no `CATEGORY:` with one of READY, IMPROVE,
MAJOR is found the category defaults to "IMPROVE"; and for every report text
exactly one of the three recommendation checkboxes is checked. -/
theorem c10_metadata_defaults_single_checkbox :
    (∀ t : String, findNameInner t.data = none → candidate_name t = "CANDIDATE") ∧
    (∀ t : String, findCategory t.data = none → extract_category t = "IMPROVE") ∧
    (∀ t : String, [rec_ready t, rec_improve t, rec_major t].count "✅" = 1) := by
  refine ⟨?_, ?_, ?_⟩
  · intro t h
    simp [candidate_name, h]
  · intro t h
    simp [extract_category, h]
  · intro t
    have hcat : extract_category t = "READY" ∨ extract_category t = "IMPROVE" ∨
        extract_category t = "MAJOR" := by
      unfold extract_category
      cases hc : findCategory t.data with
      | none => simp
      | some c => simpa using findCategory_canonical t.data c hc
    unfold rec_ready rec_improve rec_major
    rcases hcat with h | h | h <;> rw [h] <;> decide

/-- Witness for C10 at a concrete marker-free report text. -/
theorem c10_metadata_defaults_single_checkbox_witness :
    candidate_name "Plain body with no markers" = "CANDIDATE" ∧
    extract_category "Plain body with no markers" = "IMPROVE" ∧
    [rec_ready "Plain body with no markers", rec_improve "Plain body with no markers",
      rec_major "Plain body with no markers"].count "✅" = 1 :=
  ⟨c10_metadata_defaults_single_checkbox.1 _ (by decide),
   c10_metadata_defaults_single_checkbox.2.1 _ (by decide),
   c10_metadata_defaults_single_checkbox.2.2 _⟩

end CVAnalysis
